import Mathlib

/-!
# Verification of the ai-test-triage-agent analysis pipeline

A shallow embedding of the deterministic analysis pipeline of the
repository: the data model (`agent/models.py`), the analysis tools
(`agent/tools.py`), the triage orchestrator (`agent/planner.py`) and the
CI log parser (`ingestion/log_parser.py`).

Modelling conventions:
* Python strings are modelled as `List Char`; Python `str.lower` as a
  character-wise `Char.toLower` map (the repository only feeds ASCII
  keywords through it).
* Python floats are modelled two ways: the pipeline plumbing uses exact
  rationals `ℚ` (adequate where no rounding is observable), and the two
  scoring functions additionally get an exact IEEE-754 binary64 model
  (`fadd`, `fsub`, `roundTo53` over fixed-scale integers) for the claims
  whose truth depends on float rounding (C2, C10).
* Fallible/optional Python values (`Optional[...]`) are `Option`.
* The external memory collaborator (`agent/memory.py`, a vector store)
  is modelled as an abstract record of retrieval functions, matching the
  spec's treatment of it as an external collaborator with a narrow
  contract.
-/

namespace Triage

/-- Source agent/models.py, class FailureType(Enum). -/
inductive FailureType where
  | TIMEOUT
  | SELECTOR
  | NETWORK
  | DATA_SETUP
  | ENVIRONMENT
  | GENUINE_BUG
  | UNKNOWN
deriving DecidableEq, Repr

/-- Source agent/models.py, class Resolution.  The optional provenance
fields (`fixed_by`, `fixed_at`, `ticket_reference`) are kept as optional
strings; `fixed_at` is kept as its ISO text since no analysis code reads
the value. -/
structure Resolution where
  root_cause : List Char
  classification : FailureType
  fix_applied : List Char
  fixed_by : Option (List Char)
  fixed_at : Option (List Char)
  ticket_reference : Option (List Char)
  confidence : ℚ
deriving DecidableEq, Repr

/-- Source agent/models.py, class HistoricalFailure. -/
structure HistoricalFailure where
  test_name : List Char
  error_message : List Char
  error_type : Option (List Char)
  log_snippet : List Char
  timestamp : List Char
  duration_seconds : Option ℚ
  retry_count : Nat
  artifacts : List (List Char)
  resolution : Option Resolution
  ci_run_id : Option (List Char)
  branch : Option (List Char)
  commit_sha : Option (List Char)
  flaky_score : ℚ
deriving DecidableEq, Repr

/-- Source agent/models.py, class TriageResult. -/
structure TriageResult where
  test_name : List Char
  classification : FailureType
  flaky_probability : ℚ
  root_cause_explanation : List Char
  suggested_actions : List (List Char)
  confidence_score : ℚ
  similar_failures : List HistoricalFailure
  reasoning_steps : List (List Char)
deriving DecidableEq, Repr

/-- Python builtin `min` on two floats (modelled on rationals). -/
def pyMin (a b : ℚ) : ℚ := if b < a then b else a

/-- Python builtin `max` on two floats (modelled on rationals). -/
def pyMax (a b : ℚ) : ℚ := if a < b then b else a

/-- Python `str.lower`, character-wise. -/
def pyLower (l : List Char) : List Char := l.map Char.toLower

/-- Python's substring test `sub in l` on strings: some tail of `l`
starts with `sub`. -/
def containsSub (sub : List Char) : List Char → Bool
  | [] => sub.isEmpty
  | c :: cs => sub.isPrefixOf (c :: cs) || containsSub sub cs

/-- Source agent/tools.py, AgentTools.calculate_flaky_score: sequential
accumulation of the four fixed-weight signals, then `min(score, 1.0)`. -/
def calculate_flaky_score (current_failure : HistoricalFailure)
    (history : List HistoricalFailure) : ℚ :=
  let score : ℚ := 0
  -- Factor 1: Retry success in current run
  let score := if current_failure.retry_count > 0 then score + 0.4 else score
  -- Factor 2: Historical pattern
  let score := if history.length ≥ 3 then score + 0.3 else score
  -- Factor 3: Network/timeout errors are often flaky
  let score := if current_failure.error_type ∈
      [some "NetworkError".toList, some "TimeoutError".toList]
    then score + 0.2 else score
  -- Factor 4: Same error appears and disappears
  let resolved_count := history.countP (fun h => h.resolution.isSome)
  let score := if resolved_count > 0 ∧ history.length > resolved_count
    then score + 0.1 else score
  pyMin score 1

/-- Source agent/tools.py, AgentTools.classify_error_type: the five keyword
groups of the cascade, in source order. -/
def cascadeKeywords : List (FailureType × List (List Char)) :=
  [ (FailureType.TIMEOUT, ["timeout".toList, "timed out".toList, "exceeded".toList])
  , (FailureType.SELECTOR, ["selector".toList, "not found".toList,
      "element".toList, "locator".toList])
  , (FailureType.NETWORK, ["network".toList, "connection".toList,
      "etimedout".toList, "econnrefused".toList])
  , (FailureType.DATA_SETUP, ["database".toList, "duplicate key".toList,
      "constraint".toList, "data".toList])
  , (FailureType.ENVIRONMENT, ["environment".toList, "config".toList,
      "permission".toList]) ]

/-- Text that classify_error_type scans:
`(failure.error_message + " " + failure.log_snippet).lower()`. -/
def errorTextOf (failure : HistoricalFailure) : List Char :=
  pyLower (failure.error_message ++ ' ' :: failure.log_snippet)

/-- Source agent/tools.py, AgentTools.classify_error_type: the ordered
if-any(word in error_text) cascade, transcribed branch by branch. -/
def classify_error_type (failure : HistoricalFailure) : FailureType :=
  let error_text := errorTextOf failure
  -- Timeout issues
  if (["timeout".toList, "timed out".toList, "exceeded".toList].any
      (fun w => containsSub w error_text)) then FailureType.TIMEOUT
  -- Selector issues
  else if (["selector".toList, "not found".toList, "element".toList,
      "locator".toList].any (fun w => containsSub w error_text)) then
    FailureType.SELECTOR
  -- Network issues
  else if (["network".toList, "connection".toList, "etimedout".toList,
      "econnrefused".toList].any (fun w => containsSub w error_text)) then
    FailureType.NETWORK
  -- Data setup issues
  else if (["database".toList, "duplicate key".toList, "constraint".toList,
      "data".toList].any (fun w => containsSub w error_text)) then
    FailureType.DATA_SETUP
  -- Environment issues
  else if (["environment".toList, "config".toList, "permission".toList].any
      (fun w => containsSub w error_text)) then FailureType.ENVIRONMENT
  else FailureType.UNKNOWN

/-- Modelled from the spec (§4.2): "an ordered, first-match keyword
cascade" — the first category of `cascadeKeywords` one of whose keywords
occurs in the text, `UNKNOWN` when no keyword matches.  Used only to
compare the source's branch-by-branch cascade against the spec's
description. -/
def classifyFirstMatch (text : List Char) : FailureType :=
  match cascadeKeywords.find? (fun p => p.2.any (fun w => containsSub w text)) with
  | some p => p.1
  | none => FailureType.UNKNOWN

/-- Source agent/tools.py, suggest_actions, first loop: for each of the
first two similar failures (`similar_failures[:2]`) whose resolution has
confidence above 0.7, an action quoting the resolution's fix. -/
def simActions (similar_failures : List HistoricalFailure) : List (List Char) :=
  (similar_failures.take 2).filterMap (fun similar =>
    match similar.resolution with
    | some r =>
      if r.confidence > 0.7 then
        some ("Apply similar fix: ".toList ++ r.fix_applied)
      else none
    | none => none)

/-- Source agent/tools.py, suggest_actions, type-specific branches
(including the inner flakiness conditionals of the TIMEOUT and NETWORK
branches).  GENUINE_BUG and UNKNOWN have no branch in the source. -/
def typeActions (failure_type : FailureType) (flaky_score : ℚ) : List (List Char) :=
  match failure_type with
  | FailureType.TIMEOUT =>
    ["Increase wait timeout (consider animation/loading time)".toList,
     "Add explicit wait for element state (visible/stable)".toList]
    ++ (if flaky_score > 0.6 then
        ["Test is flaky - add retry logic or investigate root cause".toList]
       else [])
  | FailureType.SELECTOR =>
    ["Update selector - UI may have changed".toList,
     "Check recent deployments for UI changes".toList,
     "Use more stable selectors (data-testid, aria-label)".toList]
  | FailureType.NETWORK =>
    ["Add retry logic with exponential backoff".toList,
     "Check CI environment network stability".toList]
    ++ (if flaky_score > 0.7 then
        ["Highly flaky - investigate environment or mock network calls".toList]
       else [])
  | FailureType.DATA_SETUP =>
    ["Review test data setup - ensure cleanup between runs".toList,
     "Use unique identifiers to prevent conflicts".toList,
     "Add database reset in test teardown".toList]
  | FailureType.ENVIRONMENT =>
    ["Check environment configuration".toList,
     "Verify dependencies and services are running".toList]
  | _ => []

/-- Source agent/tools.py, suggest_actions, generic fallback block. -/
def fallbackActions : List (List Char) :=
  ["Re-run test to confirm failure is reproducible".toList,
   "Review recent code changes".toList,
   "Check CI logs for environment issues".toList]

/-- Source agent/tools.py, AgentTools.suggest_actions: similar-failure
actions, then type-specific actions, then the high-flakiness warning,
then the fallback when still empty, truncated to 5. -/
def suggest_actions (failure_type : FailureType) (flaky_score : ℚ)
    (similar_failures : List HistoricalFailure) : List (List Char) :=
  let actions := simActions similar_failures
  let actions := actions ++ typeActions failure_type flaky_score
  -- Flakiness-specific actions
  let actions := actions ++
    (if flaky_score > 0.75 then
      ["🚨 HIGH FLAKINESS - Consider quarantining test".toList]
     else [])
  -- Generic fallback
  let actions := if actions.isEmpty then fallbackActions else actions
  actions.take 5

/-- Join with a separator character, Python's `sep.join(strings)`. -/
def joinWith (sep : Char) : List (List Char) → List Char
  | [] => []
  | [l] => l
  | l :: ls => l ++ sep :: joinWith sep ls

/-- Lines of the current-failure block of
agent/tools.py, AgentTools.build_evidence_summary.  A `None` error type
renders as Python prints it in an f-string. -/
def evidenceHead (current_failure : HistoricalFailure) : List (List Char) :=
  [ "CURRENT FAILURE:".toList
  , "Test: ".toList ++ current_failure.test_name
  , "Error: ".toList ++ current_failure.error_message
  , "Type: ".toList ++
      (match current_failure.error_type with
       | some t => t
       | none => "None".toList)
  , "Log snippet: ".toList ++ current_failure.log_snippet
  , "Retries: ".toList ++ (Nat.repr current_failure.retry_count).toList ]

/-- Lines of the numbered similar-failure block of
build_evidence_summary (`enumerate(similar_failures[:3], 1)`). -/
def simBlock : Nat → List HistoricalFailure → List (List Char)
  | _, [] => []
  | i, similar :: rest =>
    ([ (Nat.repr i).toList ++ ". ".toList ++ similar.test_name
     , "   Error: ".toList ++ similar.error_message ]
     ++ (match similar.resolution with
        | some r =>
          [ "   Root cause: ".toList ++ r.root_cause
          , "   Fix applied: ".toList ++ r.fix_applied ]
        | none => []))
    ++ simBlock (i + 1) rest

/-- Source agent/tools.py, AgentTools.build_evidence_summary. -/
def build_evidence_summary (current_failure : HistoricalFailure)
    (similar_failures : List HistoricalFailure)
    (history : List HistoricalFailure) : List Char :=
  let evidence := evidenceHead current_failure
  let evidence := evidence ++
    (if similar_failures.isEmpty then []
     else
      ("\nSIMILAR PAST FAILURES (".toList
        ++ (Nat.repr similar_failures.length).toList ++ "):".toList)
      :: simBlock 1 (similar_failures.take 3))
  let evidence := evidence ++
    (if history.isEmpty then []
     else
      let resolved := history.countP (fun h => h.resolution.isSome)
      [ "\nTEST HISTORY (".toList ++ (Nat.repr history.length).toList
          ++ " past failures)".toList
      , "Resolved: ".toList ++ (Nat.repr resolved).toList ++ "/".toList
          ++ (Nat.repr history.length).toList ])
  joinWith '\n' evidence

/-- Source agent/planner.py, TriageAgent._rule_based_explanation: the
per-classification template, plus the top similar failure's fix line
when that failure has a resolution. -/
def rule_based_explanation (failure : HistoricalFailure)
    (similar_failures : List HistoricalFailure)
    (failure_type : FailureType) : List Char :=
  let base_explanation :=
    match failure_type with
    | FailureType.TIMEOUT =>
      "The test \x27".toList ++ failure.test_name ++
      ("\x27 timed out waiting for an element. " ++
       "This typically occurs when the page takes longer than expected to render, " ++
       "or when elements are hidden/delayed by animations.").toList
    | FailureType.SELECTOR =>
      ("The test cannot find the expected element using the specified selector. " ++
       "This usually indicates that the UI structure has changed, requiring " ++
       "an update to the test\x27s element locators.").toList
    | FailureType.NETWORK =>
      ("Network connectivity issues prevented the test from completing. " ++
       "This may be due to temporary network instability in the CI environment " ++
       "or issues with external dependencies.").toList
    | FailureType.DATA_SETUP =>
      ("Test data setup failed, likely due to database constraint violations " ++
       "or leftover data from previous test runs. Proper test isolation and " ++
       "cleanup is needed.").toList
    | FailureType.ENVIRONMENT =>
      ("The test failed due to environment configuration issues. " ++
       "This could involve missing dependencies, incorrect settings, or " ++
       "service availability problems.").toList
    | _ =>
      "The test \x27".toList ++ failure.test_name ++
      "\x27 failed with error: ".toList ++ failure.error_message
  -- Add context from similar failures
  match similar_failures with
  | [] => base_explanation
  | s :: _ =>
    match s.resolution with
    | some r =>
      base_explanation ++
      " A similar failure was previously resolved by: ".toList ++ r.fix_applied
    | none => base_explanation

/-- Whitespace characters of Python's default `str.strip` / `str.split`. -/
def isPySpace (c : Char) : Bool :=
  c = ' ' || c = '\t' || c = '\n' || c = '\r' || c = '\x0B' || c = '\x0C'

/-- Python `str.strip()`: drop whitespace from both ends. -/
def pyStrip (l : List Char) : List Char :=
  ((l.dropWhile isPySpace).reverse.dropWhile isPySpace).reverse

/-- Prompt of agent/planner.py, _generate_root_cause_explanation. -/
def llmPrompt (evidence : List Char) : List Char :=
  "You are a test automation expert analyzing a test failure.\n\n".toList
  ++ evidence ++
  ("\n\nBased on this evidence, provide a clear, concise root cause explanation (2-3 sentences).\n" ++
   "Focus on:\n1. What specifically went wrong\n2. Why it likely happened\n" ++
   "3. Reference similar past failures if relevant\n\nRoot cause explanation:").toList

/-- Source agent/planner.py, _generate_root_cause_explanation.  The LLM
collaborator is an abstract `complete` function that may fail (`none`);
when it is absent or fails, the rule-based fallback is used, as in the
source's `if self.llm:` / `except` paths. -/
def generate_root_cause_explanation
    (llm : Option (List Char → Option (List Char)))
    (failure : HistoricalFailure)
    (similar_failures : List HistoricalFailure)
    (history : List HistoricalFailure)
    (failure_type : FailureType) : List Char :=
  let evidence := build_evidence_summary failure similar_failures history
  match llm with
  | some complete =>
    match complete (llmPrompt evidence) with
    | some text => pyStrip text
    | none => rule_based_explanation failure similar_failures failure_type
  | none => rule_based_explanation failure similar_failures failure_type

/-- Condition of the `resolved_similar` list comprehension in
_calculate_confidence: `f.resolution and f.resolution.confidence > 0.7`. -/
def resolutionAbove07 (f : HistoricalFailure) : Bool :=
  match f.resolution with
  | some r => decide (r.confidence > 0.7)
  | none => false

/-- Source agent/planner.py, TriageAgent._calculate_confidence. -/
def calculate_confidence (failure_type : FailureType)
    (similar_failures : List HistoricalFailure) (flaky_score : ℚ) : ℚ :=
  let confidence : ℚ := 0.5  -- Base confidence
  -- Higher confidence if we have resolved similar failures
  let resolved_similar := similar_failures.filter resolutionAbove07
  let confidence := if !resolved_similar.isEmpty then confidence + 0.3 else confidence
  -- Lower confidence for unknown failure types
  let confidence := if failure_type = FailureType.UNKNOWN then confidence - 0.2
    else confidence
  -- Adjust for flakiness (flaky tests are harder to diagnose)
  let confidence := if flaky_score > 0.7 then confidence - 0.1 else confidence
  pyMax 0.1 (pyMin 1 confidence)

/-- Abstract model of the external memory collaborator
(agent/memory.py): deterministic retrieval functions over whatever the
store currently holds, per the spec's narrow external contract. -/
structure FailureMemory where
  search_similar : HistoricalFailure → Nat → List HistoricalFailure
  get_by_test_name : List Char → List HistoricalFailure

/-- Source agent/planner.py, TriageAgent.analyze: the orchestration
sequence.  The `reasoning_steps` list collects exactly the strings the
source appends (one before each of its seven traced steps); the
history entry interpolates the test name as in the source f-string. -/
def analyze (llm : Option (List Char → Option (List Char)))
    (memory : FailureMemory) (failure : HistoricalFailure) : TriageResult :=
  let similar_failures := memory.search_similar failure 5
  let history := memory.get_by_test_name failure.test_name
  let flaky_score := calculate_flaky_score failure history
  let failure_type := classify_error_type failure
  let root_cause :=
    generate_root_cause_explanation llm failure similar_failures history failure_type
  let actions := suggest_actions failure_type flaky_score similar_failures
  let confidence := calculate_confidence failure_type similar_failures flaky_score
  { test_name := failure.test_name
  , classification := failure_type
  , flaky_probability := flaky_score
  , root_cause_explanation := root_cause
  , suggested_actions := actions
  , confidence_score := confidence
  , similar_failures := similar_failures.take 3
  , reasoning_steps :=
      [ "Gathering evidence from logs and error messages".toList
      , "Searching for similar past failures in memory".toList
      , "Retrieving history for test: ".toList ++ failure.test_name
      , "Calculating flakiness probability".toList
      , "Classifying failure type".toList
      , "Generating root cause explanation".toList
      , "Determining actionable next steps".toList ] }

/-! ## Log parser (ingestion/log_parser.py)

The parser's regular expressions are embedded as dedicated matchers
with Python `re` semantics for these specific patterns: leftmost match,
greedy repetition.  `\w` is modelled as ASCII word characters (the
repository's logs are ASCII). -/

/-- Source ingestion/log_parser.py, class LogEntry.  The timestamp is
kept as the matched `YYYY-MM-DD HH:MM:SS` text (validated like
`datetime.strptime`) instead of a datetime value, which no analysis
code reads. -/
structure LogEntry where
  timestamp : Option (List Char)
  level : List Char
  message : List Char
  raw_line : List Char
deriving DecidableEq, Repr

/-- Source ingestion/log_parser.py, class TestFailure. -/
structure TestFailure where
  test_name : List Char
  failure_message : List Char
  error_type : Option (List Char)
  duration_seconds : Option ℚ
  log_entries : List LogEntry
  error_lines : List (List Char)
  artifacts : List (List Char)
  retry_count : Nat
deriving DecidableEq, Repr

/-- Python `content.split(sep)` for a single-character separator: at
least one (possibly empty) piece, empty pieces kept. -/
def splitOn (sep : Char) : List Char → List (List Char)
  | [] => [[]]
  | c :: cs =>
    if c = sep then [] :: splitOn sep cs
    else
      match splitOn sep cs with
      | [] => [[c]]
      | l :: ls => (c :: l) :: ls

/-- Match a fixed-length character-class shape at the head of the
input, returning the matched characters and the rest. -/
def matchShape : List (Char → Bool) → List Char → Option (List Char × List Char)
  | [], l => some ([], l)
  | _ :: _, [] => none
  | p :: ps, c :: cs =>
    if p c then (matchShape ps cs).map (fun mr => (c :: mr.1, mr.2))
    else none

/-- Shape of TIMESTAMP_PATTERN
`\[(\d{4}-\d{2}-\d{2} \d{2}:\d{2}:\d{2})\]` (brackets included). -/
def tsShape : List (Char → Bool) :=
  [fun c => c == '[']
  ++ List.replicate 4 Char.isDigit ++ [fun c => c == '-']
  ++ List.replicate 2 Char.isDigit ++ [fun c => c == '-']
  ++ List.replicate 2 Char.isDigit ++ [fun c => c == ' ']
  ++ List.replicate 2 Char.isDigit ++ [fun c => c == ':']
  ++ List.replicate 2 Char.isDigit ++ [fun c => c == ':']
  ++ List.replicate 2 Char.isDigit ++ [fun c => c == ']']

/-- Leftmost application of a matcher, Python `re.search`: try the
matcher at each start position, left to right. -/
def searchPat (f : List Char → Option α) : List Char → Option α
  | [] => none
  | c :: cs =>
    match f (c :: cs) with
    | some r => some r
    | none => searchPat f cs

/-- Value of a digit run. -/
def natOfDigits (l : List Char) : Nat :=
  l.foldl (fun acc c => acc * 10 + (c.toNat - '0'.toNat)) 0

/-- Gregorian leap year, as `datetime` validates it. -/
def isLeap (y : Nat) : Bool := (y % 4 = 0 && y % 100 ≠ 0) || y % 400 = 0

/-- Days in a month, as `datetime` validates it. -/
def daysInMonth (y m : Nat) : Nat :=
  if m = 2 then (if isLeap y then 29 else 28)
  else if m = 4 ∨ m = 6 ∨ m = 9 ∨ m = 11 then 30
  else 31

/-- Validity of a matched `YYYY-MM-DD HH:MM:SS` group, mirroring the
`datetime.strptime` check guarded by try/except in _extract_timestamp. -/
def validDateTime (g : List Char) : Bool :=
  let y := natOfDigits (g.take 4)
  let mo := natOfDigits ((g.drop 5).take 2)
  let d := natOfDigits ((g.drop 8).take 2)
  let h := natOfDigits ((g.drop 11).take 2)
  let mi := natOfDigits ((g.drop 14).take 2)
  let s := natOfDigits ((g.drop 17).take 2)
  decide (1 ≤ y) && decide (1 ≤ mo) && decide (mo ≤ 12) &&
  decide (1 ≤ d) && decide (d ≤ daysInMonth y mo) &&
  decide (h ≤ 23) && decide (mi ≤ 59) && decide (s ≤ 59)

/-- Source ingestion/log_parser.py, LogParser._extract_timestamp: first
TIMESTAMP_PATTERN match; group 1 is the text between the brackets;
`strptime` failure (invalid date) yields None. -/
def extract_timestamp (line : List Char) : Option (List Char) :=
  match searchPat (fun l => matchShape tsShape l) line with
  | some (m, _) =>
    let g := (m.drop 1).dropLast
    if validDateTime g then some g else none
  | none => none

/-- Alternatives of LEVEL_PATTERN `(INFO|ERROR|FAIL|PASS|WARNING|NOTE)`,
in source order. -/
def levelTokens : List (List Char) :=
  ["INFO".toList, "ERROR".toList, "FAIL".toList, "PASS".toList,
   "WARNING".toList, "NOTE".toList]

/-- Leftmost LEVEL_PATTERN match: no alternative is a prefix of
another, so trying the alternatives in order at each position is
exactly the regex's behaviour. -/
def findLevel : List Char → Option (List Char)
  | [] => none
  | c :: cs =>
    match levelTokens.find? (fun lv => lv.isPrefixOf (c :: cs)) with
    | some lv => some lv
    | none => findLevel cs

/-- Source ingestion/log_parser.py, LogParser._extract_level. -/
def extract_level (line : List Char) : List Char :=
  (findLevel line).getD "INFO".toList

/-- Python `re.sub(pat, '', s)` for a matcher returning the consumed
length, fuel-indexed: remove every leftmost non-overlapping match.
Matchers used here always consume at least one character, so fuel equal
to the input length (as supplied by `subPat`) never runs out. -/
def subPatAux (f : List Char → Option Nat) : Nat → List Char → List Char
  | 0, l => l
  | _ + 1, [] => []
  | fuel + 1, c :: cs =>
    match f (c :: cs) with
    | some (n + 1) => subPatAux f fuel ((c :: cs).drop (n + 1))
    | _ => c :: subPatAux f fuel cs

/-- Python `re.sub(pat, '', s)` for a matcher returning the consumed
length: remove every leftmost non-overlapping match. -/
def subPat (f : List Char → Option Nat) (l : List Char) : List Char :=
  subPatAux f l.length l

/-- Consumed length of a TIMESTAMP_PATTERN match at the head. -/
def tsMatchLen (l : List Char) : Option Nat :=
  (matchShape tsShape l).map (fun mr => mr.1.length)

/-- Consumed length of a `(INFO|ERROR|FAIL|PASS|WARNING|NOTE):` match
at the head, as used by the `re.sub` in _extract_message. -/
def levelColonLen (l : List Char) : Option Nat :=
  match levelTokens.find? (fun lv => (lv ++ [':']).isPrefixOf l) with
  | some lv => some (lv.length + 1)
  | none => none

/-- Source ingestion/log_parser.py, LogParser._extract_message: strip
the timestamp pattern, then the `LEVEL:` pattern, then whitespace. -/
def extract_message (line : List Char) : List Char :=
  pyStrip (subPat levelColonLen (subPat tsMatchLen line))

/-- One parsed line of _parse_log_lines' loop body. -/
def mkLogEntry (line : List Char) : LogEntry :=
  { timestamp := extract_timestamp line
  , level := extract_level line
  , message := extract_message line
  , raw_line := line }

/-- Source ingestion/log_parser.py, LogParser._parse_log_lines: split
on newlines, skip lines that strip to empty, parse each. -/
def parse_log_lines (content : List Char) : List LogEntry :=
  ((splitOn '\n' content).filter (fun line => !(pyStrip line).isEmpty)).map mkLogEntry

/-- ASCII model of the `\w` character class of TEST_NAME_PATTERN. -/
def wordChar (c : Char) : Bool := c.isAlphanum || c = '_'

/-- TEST_NAME_PATTERN `test[_\w]+` matched at the head: the literal
`test` followed by a maximal nonempty run of word characters. -/
def testNameMatch (l : List Char) : Option (List Char) :=
  if "test".toList.isPrefixOf l then
    let run := (l.drop 4).takeWhile wordChar
    if run.isEmpty then none else some ("test".toList ++ run)
  else none

/-- Source ingestion/log_parser.py, LogParser._extract_test_name: the
first entry that contains `Starting test:` and matches
TEST_NAME_PATTERN yields the match; otherwise the sentinel. -/
def extract_test_name : List LogEntry → List Char
  | [] => "unknown_test".toList
  | e :: es =>
    if containsSub "Starting test:".toList e.message then
      match searchPat testNameMatch e.message with
      | some name => name
      | none => extract_test_name es
    else extract_test_name es

/-- Membership of an entry's level in `['ERROR', 'FAIL']`. -/
def isErrorLevel (e : LogEntry) : Bool :=
  e.level = "ERROR".toList || e.level = "FAIL".toList

/-- Source ingestion/log_parser.py, LogParser._extract_failure_message. -/
def extract_failure_message (entries : List LogEntry) : List Char :=
  match entries.filter (fun e =>
      e.level = "FAIL".toList || e.level = "ERROR".toList) with
  | [] => "Unknown failure".toList
  | e :: _ => e.message

/-- Source ingestion/log_parser.py, LogParser._classify_error_type (the
parser's own lower-level tag, distinct from the agent's classifier). -/
def classify_parser_error_type (error_lines : List (List Char)) : Option (List Char) :=
  let error_text := pyLower (joinWith ' ' error_lines)
  if containsSub "timeout".toList error_text then some "TimeoutError".toList
  else if containsSub "selector".toList error_text
      || containsSub "element not found".toList error_text then
    some "SelectorError".toList
  else if containsSub "connection".toList error_text
      || containsSub "network".toList error_text then
    some "NetworkError".toList
  else if containsSub "database".toList error_text
      || containsSub "duplicate key".toList error_text then
    some "DatabaseError".toList
  else none

/-- DURATION_PATTERN `after (\d+)s` matched at the head: the greedy
digit run must be directly followed by `s` (a shorter run would end at
a digit, so no backtracking applies). -/
def durationMatch (l : List Char) : Option Nat :=
  if "after ".toList.isPrefixOf l then
    let digits := (l.drop 6).takeWhile Char.isDigit
    if digits.isEmpty then none
    else
      match (l.drop (6 + digits.length)).head? with
      | some c => if c = 's' then some (natOfDigits digits) else none
      | none => none
  else none

/-- Source ingestion/log_parser.py, LogParser._extract_duration: the
first entry with a DURATION_PATTERN match yields `float(group(1))`. -/
def extract_duration : List LogEntry → Option ℚ
  | [] => none
  | e :: es =>
    match searchPat durationMatch e.message with
    | some n => some (n : ℚ)
    | none => extract_duration es

/-- Python `str.split()` with no argument: split on whitespace runs,
dropping empty pieces (accumulator-based). -/
def splitWsAux : List Char → List Char → List (List Char)
  | [], acc => if acc.isEmpty then [] else [acc.reverse]
  | c :: cs, acc =>
    if isPySpace c then
      if acc.isEmpty then splitWsAux cs [] else acc.reverse :: splitWsAux cs []
    else splitWsAux cs (c :: acc)

/-- Python `str.split()` with no argument. -/
def pySplitWs (l : List Char) : List (List Char) := splitWsAux l []

/-- Source ingestion/log_parser.py, LogParser._extract_artifacts. -/
def extract_artifacts (entries : List LogEntry) : List (List Char) :=
  ((entries.filter (fun e => containsSub "screenshot".toList (pyLower e.message))).map
    (fun e => (pySplitWs e.message).filter (fun w =>
      ".png".toList.isSuffixOf w || ".jpg".toList.isSuffixOf w
      || ".jpeg".toList.isSuffixOf w))).flatten

/-- Source ingestion/log_parser.py, LogParser._count_retries. -/
def count_retries (entries : List LogEntry) : Nat :=
  entries.countP (fun e => containsSub "retry attempt".toList (pyLower e.message))

/-- Source ingestion/log_parser.py, LogParser.parse_file, applied to
the file content (the file read itself is outside the model).  Total:
every field of every input degrades to its default, never an error. -/
def parse_file (content : List Char) : TestFailure :=
  let log_entries := parse_log_lines content
  let test_name := extract_test_name log_entries
  let error_lines := (log_entries.filter isErrorLevel).map (fun e => e.message)
  let failure_message := extract_failure_message log_entries
  let error_type := classify_parser_error_type error_lines
  let duration := extract_duration log_entries
  let artifacts := extract_artifacts log_entries
  let retry_count := count_retries log_entries
  { test_name := test_name
  , failure_message := failure_message
  , error_type := error_type
  , duration_seconds := duration
  , log_entries := log_entries
  , error_lines := error_lines
  , artifacts := artifacts
  , retry_count := retry_count }

/-! ## Concrete inputs used by witnesses and counterexamples -/

/-- A failure record with every optional field absent. -/
def baseFailure : HistoricalFailure :=
  { test_name := [], error_message := [], error_type := none, log_snippet := [],
    timestamp := [], duration_seconds := none, retry_count := 0, artifacts := [],
    resolution := none, ci_run_id := none, branch := none, commit_sha := none,
    flaky_score := 0 }

/-- The flakiness example of the spec: retry count 2, NetworkError, no
history. -/
def networkRetryFailure : HistoricalFailure :=
  { baseFailure with
    test_name := "test_api_search".toList
    retry_count := 2
    error_type := some "NetworkError".toList }

/-- A failure whose text contains both "timeout" and "selector". -/
def timeoutSelectorFailure : HistoricalFailure :=
  { baseFailure with
    error_message := "TimeoutError: selector not visible".toList }

/-- A resolution with confidence 0.9 and fix text "B". -/
def fixBRes : Resolution :=
  { root_cause := "root cause B".toList, classification := FailureType.SELECTOR,
    fix_applied := "B".toList, fixed_by := none, fixed_at := none,
    ticket_reference := none, confidence := 0.9 }

/-- A resolution with confidence 0.9 and fix text "C". -/
def fixCRes : Resolution := { fixBRes with fix_applied := "C".toList }

/-- A similar failure resolved with fix "B" at confidence 0.9. -/
def simFixB : HistoricalFailure := { baseFailure with resolution := some fixBRes }

/-- A similar failure resolved with fix "C" at confidence 0.9. -/
def simFixC : HistoricalFailure := { baseFailure with resolution := some fixCRes }

/-- Similar-failure list whose first entry is unresolved and whose
second and third entries are resolved above confidence 0.7. -/
def skipFirstSims : List HistoricalFailure := [baseFailure, simFixB, simFixC]

/-- A log whose first entry names the test, whose second is an ERROR
entry with the timeout text, and whose third carries the duration. -/
def goodLog : List Char :=
  ("[2024-01-10 10:00:00] INFO: Starting test: test_user_login" ++ "\n" ++
   "[2024-01-10 10:00:31] ERROR: Timeout 30000ms exceeded" ++ "\n" ++
   "[2024-01-10 10:00:32] INFO: Test completed after 32s").toList

/-- First parsed entry of `goodLog`. -/
def goodEntry0 : LogEntry :=
  { timestamp := some "2024-01-10 10:00:00".toList
  , level := "INFO".toList
  , message := "Starting test: test_user_login".toList
  , raw_line := "[2024-01-10 10:00:00] INFO: Starting test: test_user_login".toList }

/-- Second parsed entry of `goodLog`. -/
def goodEntry1 : LogEntry :=
  { timestamp := some "2024-01-10 10:00:31".toList
  , level := "ERROR".toList
  , message := "Timeout 30000ms exceeded".toList
  , raw_line := "[2024-01-10 10:00:31] ERROR: Timeout 30000ms exceeded".toList }

/-- Third parsed entry of `goodLog`. -/
def goodEntry2 : LogEntry :=
  { timestamp := some "2024-01-10 10:00:32".toList
  , level := "INFO".toList
  , message := "Test completed after 32s".toList
  , raw_line := "[2024-01-10 10:00:32] INFO: Test completed after 32s".toList }

/-- The same log preceded by a line starting a different test. -/
def badLog : List Char := "Starting test: test_other".toList ++ '\n' :: goodLog

/-- A log with no test name, no error-level line, no error keyword, no
duration pattern. -/
def garbageLog : List Char := "garbage line one\n\n???".toList

/-- The memory collaborator with no stored failures. -/
def emptyMemory : FailureMemory :=
  { search_similar := fun _ _ => []
  , get_by_test_name := fun _ => [] }

/-- Modelled from the spec (claim C4's reading): one quoting action for
each of the first two failures anywhere in the list whose resolution
confidence exceeds 0.7. -/
def claimedLeadingFixActions (sims : List HistoricalFailure) : List (List Char) :=
  (sims.filterMap (fun s =>
    match s.resolution with
    | some r =>
      if r.confidence > 0.7 then
        some ("Apply similar fix: ".toList ++ r.fix_applied)
      else none
    | none => none)).take 2

/-- Fix texts of the qualifying resolutions inside the source's two-entry
window, used to state when the quoting actions are pairwise distinct. -/
def qualifyingFixes (sims : List HistoricalFailure) : List (List Char) :=
  (sims.take 2).filterMap (fun s =>
    match s.resolution with
    | some r => if r.confidence > 0.7 then some r.fix_applied else none
    | none => none)

/-! ## IEEE-754 binary64 model of the two scoring functions

The rational versions of `calculate_flaky_score` and
`calculate_confidence` above idealize Python's float arithmetic as exact
arithmetic.  That idealization is observably wrong at two points: in
CPython `0.0 + 0.4 + 0.2` is `0.6000000000000001`, not `0.6`, and
`0.5 - 0.2 - 0.1` is `0.19999999999999998`, which is below `0.2`.  The
definitions below therefore model the same two source functions under
exact IEEE-754 binary64 (double) semantics.

A double is represented as an integer at the fixed scale `2 ^ (-55)`
(its value is the integer divided by `2 ^ 55`, see `dblValue`).  Every
float literal of the two scoring functions is an integer multiple of
`2 ^ (-55)` (their unit in the last place is at least `2 ^ (-56)`, and
the only literal below `0.25`, namely `0.1`, happens to sit at scale
`2 ^ (-55)`), and sums and differences of such multiples are again such
multiples, so the fixed scale is exact.  For an integer `n` at this
scale, rounding the value `n / 2 ^ 55` to the nearest double
(round-to-nearest, ties-to-even — the IEEE-754 default used by CPython)
is exactly: keep the top 53 bits of `n`, rounding ties to even
(`roundTo53`).  Comparisons of equal-scale integers coincide with double
comparisons. -/

/-- Bit length of a natural number (number of binary digits; 0 for 0),
fuel-indexed with enough fuel for every input. -/
def bitLenAux : Nat → Nat → Nat
  | 0, _ => 0
  | fuel + 1, n => if n = 0 then 0 else bitLenAux fuel (n / 2) + 1

/-- Bit length of a natural number (number of binary digits; 0 for 0). -/
def bitLen (n : Nat) : Nat := bitLenAux n n

/-- Round an integer to 53 significant bits, round-to-nearest with ties
to even — IEEE-754 binary64 rounding for a value held at a fixed power
of two scale. -/
def roundTo53 (n : Int) : Int :=
  let a := n.natAbs
  let k := bitLen a
  if k ≤ 53 then n
  else
    let sh := k - 53
    let p : Nat := 2 ^ sh
    let q := a / p
    let r := a % p
    let half := p / 2
    let q' :=
      if half < r then q + 1
      else if r < half then q
      else if q % 2 = 0 then q else q + 1
    if n < 0 then -((q' * p : Nat) : Int) else ((q' * p : Nat) : Int)

/-- IEEE-754 binary64 addition of two doubles held at scale `2 ^ (-55)`:
the exact sum, rounded to 53 significant bits. -/
def fadd (a b : Int) : Int := roundTo53 (a + b)

/-- IEEE-754 binary64 subtraction of two doubles held at scale
`2 ^ (-55)`. -/
def fsub (a b : Int) : Int := roundTo53 (a - b)

/-- Python builtin `min` on two doubles at equal scale. -/
def pyMinFp (a b : Int) : Int := if b < a then b else a

/-- Python builtin `max` on two doubles at equal scale. -/
def pyMaxFp (a b : Int) : Int := if a < b then b else a

/-- Exact rational value of a double held at scale `2 ^ (-55)`. -/
def dblValue (n : Int) : ℚ := (n : ℚ) / 2 ^ 55

/-- The double nearest 0.1, at scale `2 ^ (-55)`. -/
def d01 : Int := 3602879701896397

/-- The double nearest 0.2, at scale `2 ^ (-55)`. -/
def d02 : Int := 7205759403792794

/-- The double nearest 0.3, at scale `2 ^ (-55)`. -/
def d03 : Int := 10808639105689190

/-- The double nearest 0.4, at scale `2 ^ (-55)`. -/
def d04 : Int := 14411518807585588

/-- The double 0.5 (exact), at scale `2 ^ (-55)`. -/
def d05 : Int := 18014398509481984

/-- The double nearest 0.6, at scale `2 ^ (-55)`. -/
def d06 : Int := 21617278211378380

/-- The double nearest 0.7, at scale `2 ^ (-55)`. -/
def d07 : Int := 25220157913274776

/-- The double nearest 0.8, at scale `2 ^ (-55)`. -/
def d08 : Int := 28823037615171176

/-- The double 1.0 (exact), at scale `2 ^ (-55)`. -/
def d1 : Int := 36028797018963968

/-- Source agent/tools.py, AgentTools.calculate_flaky_score under exact
IEEE-754 binary64 semantics: the same sequential accumulation as
`calculate_flaky_score`, with each `score += w` a double addition and
`min(score, 1.0)` a double comparison. -/
def calculate_flaky_score_fp (current_failure : HistoricalFailure)
    (history : List HistoricalFailure) : Int :=
  let score : Int := 0
  -- Factor 1: Retry success in current run
  let score := if current_failure.retry_count > 0 then fadd score d04 else score
  -- Factor 2: Historical pattern
  let score := if history.length ≥ 3 then fadd score d03 else score
  -- Factor 3: Network/timeout errors are often flaky
  let score := if current_failure.error_type ∈
      [some "NetworkError".toList, some "TimeoutError".toList]
    then fadd score d02 else score
  -- Factor 4: Same error appears and disappears
  let resolved_count := history.countP (fun h => h.resolution.isSome)
  let score := if resolved_count > 0 ∧ history.length > resolved_count
    then fadd score d01 else score
  pyMinFp score d1

/-- Source agent/planner.py, TriageAgent._calculate_confidence under
exact IEEE-754 binary64 semantics: the flaky score input is a double at
scale `2 ^ (-55)`.  The `resolved_similar` condition reuses
`resolutionAbove07` on the stored model confidences; every resolution
confidence in the repository's data (0.7, 0.8, 0.9, 0.95, 1.0) compares
to 0.7 identically in double and rational semantics, so the branch
choice agrees with the program. -/
def calculate_confidence_fp (failure_type : FailureType)
    (similar_failures : List HistoricalFailure) (flaky_score : Int) : Int :=
  let confidence : Int := d05  -- Base confidence
  -- Higher confidence if we have resolved similar failures
  let resolved_similar := similar_failures.filter resolutionAbove07
  let confidence := if !resolved_similar.isEmpty then fadd confidence d03
    else confidence
  -- Lower confidence for unknown failure types
  let confidence := if failure_type = FailureType.UNKNOWN then fsub confidence d02
    else confidence
  -- Adjust for flakiness (flaky tests are harder to diagnose)
  let confidence := if flaky_score > d07 then fsub confidence d01 else confidence
  pyMaxFp d01 (pyMinFp d1 confidence)

/-! ## Helper lemmas -/

/-- Each hard-coded double significand is the double nearest its decimal
literal: exact where the decimal is dyadic, otherwise strictly within
half a unit in the last place of its binade (so there is no tie and the
nearest double is unique). -/
theorem double_literals_nearest :
    |dblValue d01 - 1 / 10| < 1 / 2 ^ 57 ∧
    |dblValue d02 - 1 / 5| < 1 / 2 ^ 56 ∧
    |dblValue d03 - 3 / 10| < 1 / 2 ^ 55 ∧
    |dblValue d04 - 2 / 5| < 1 / 2 ^ 55 ∧
    dblValue d05 = 1 / 2 ∧
    |dblValue d06 - 3 / 5| < 1 / 2 ^ 54 ∧
    |dblValue d07 - 7 / 10| < 1 / 2 ^ 54 ∧
    |dblValue d08 - 4 / 5| < 1 / 2 ^ 54 ∧
    dblValue d1 = 1 := by
  norm_num [dblValue, d01, d02, d03, d04, d05, d06, d07, d08, d1,
    abs_sub_lt_iff, abs_lt]

/-- Sanity checks of the double model against CPython: `0.4 + 0.2` is
`0.6000000000000001`, `0.2 + 0.1` is `0.30000000000000004`, `0.5 + 0.3`
is exactly `0.8`, `0.5 - 0.2` is exactly `0.3`, and `0.3 - 0.1` is
`0.19999999999999998`. -/
theorem fadd_matches_cpython :
    fadd d04 d02 = 21617278211378384 ∧
    fadd d02 d01 = 10808639105689192 ∧
    fadd d05 d03 = d08 ∧
    fsub d05 d02 = d03 ∧
    fsub d03 d01 = 7205759403792793 := by
  decide

theorem pyMin_eq_min (a b : ℚ) : pyMin a b = min a b := by
  unfold pyMin
  rcases lt_or_ge b a with h | h
  · rw [if_pos h, min_eq_right h.le]
  · rw [if_neg (not_lt.mpr h), min_eq_left h]

theorem pyMax_eq_max (a b : ℚ) : pyMax a b = max a b := by
  unfold pyMax
  rcases lt_or_ge a b with h | h
  · rw [if_pos h, max_eq_right h.le]
  · rw [if_neg (not_lt.mpr h), max_eq_left h]

theorem containsSub_iff (sub l : List Char) :
    containsSub sub l = true ↔ sub <:+: l := by
  induction l with
  | nil => simp [containsSub, List.isEmpty_iff]
  | cons c cs ih =>
    simp [containsSub, List.isPrefixOf_iff_prefix, ih, List.infix_cons_iff]

/-! ## C1: the classifier cascade -/

/-- C1: for every failure, `classify_error_type` returns the first
matching category of the ordered cascade TIMEOUT, SELECTOR, NETWORK,
DATA_SETUP, ENVIRONMENT over the lower-cased concatenation of error
message and log snippet (UNKNOWN when no keyword matches); and whenever
that text contains both "timeout" and "selector", the result is
TIMEOUT. -/
theorem classify_error_type_cascade (f : HistoricalFailure) :
    classify_error_type f = classifyFirstMatch (errorTextOf f) ∧
    (containsSub "timeout".toList (errorTextOf f) = true →
     containsSub "selector".toList (errorTextOf f) = true →
     classify_error_type f = FailureType.TIMEOUT) := by
  constructor
  · cases e1 : (["timeout".toList, "timed out".toList, "exceeded".toList].any
        (fun w => containsSub w (errorTextOf f))) <;>
    cases e2 : (["selector".toList, "not found".toList, "element".toList,
        "locator".toList].any (fun w => containsSub w (errorTextOf f))) <;>
    cases e3 : (["network".toList, "connection".toList, "etimedout".toList,
        "econnrefused".toList].any (fun w => containsSub w (errorTextOf f))) <;>
    cases e4 : (["database".toList, "duplicate key".toList, "constraint".toList,
        "data".toList].any (fun w => containsSub w (errorTextOf f))) <;>
    cases e5 : (["environment".toList, "config".toList, "permission".toList].any
        (fun w => containsSub w (errorTextOf f))) <;>
    simp only [classify_error_type, classifyFirstMatch, cascadeKeywords,
      List.find?_cons, List.find?_nil, e1, e2, e3, e4, e5, Bool.false_eq_true,
      eq_self_iff_true, if_true, if_false, ite_true, ite_false]
  · intro ht _
    have h1 : (["timeout".toList, "timed out".toList, "exceeded".toList].any
        (fun w => containsSub w (errorTextOf f))) = true := by
      simp only [List.any_eq_true]
      exact ⟨"timeout".toList, by simp, ht⟩
    simp only [classify_error_type, h1, eq_self_iff_true, if_true]

/-- Witness for C1 at a concrete failure whose text contains both
"timeout" and "selector". -/
theorem classify_error_type_cascade_witness :
    classify_error_type timeoutSelectorFailure = FailureType.TIMEOUT :=
  (classify_error_type_cascade timeoutSelectorFailure).2 (by decide) (by decide)

/-! ## C2: the flakiness score -/

/-- Exact-rational idealization of the flakiness score: the ℚ model
`calculate_flaky_score` is exactly the sum of the applicable fixed
weights — 0.4 for a positive retry count, 0.3 for history length at
least 3, 0.2 for a NetworkError/TimeoutError error type, 0.1 for a
history with at least one resolved and at least one unresolved entry —
clamped to at most 1.0, and the example input scores exactly 0.6.  The
program's float arithmetic deviates from this at the last decimal digit:
see `calculate_flaky_score_fp_weights` and its counterexample. -/
theorem calculate_flaky_score_weights (f : HistoricalFailure)
    (history : List HistoricalFailure) :
    calculate_flaky_score f history =
      min ((if f.retry_count > 0 then (0.4 : ℚ) else 0)
        + (if history.length ≥ 3 then (0.3 : ℚ) else 0)
        + (if f.error_type = some "NetworkError".toList
             ∨ f.error_type = some "TimeoutError".toList then (0.2 : ℚ) else 0)
        + (if (∃ h ∈ history, h.resolution.isSome = true)
             ∧ (∃ h ∈ history, h.resolution = none) then (0.1 : ℚ) else 0)) 1 ∧
    calculate_flaky_score networkRetryFailure [] = 0.6 := by
  constructor
  · have hlt : history.countP (fun h => h.resolution.isSome) < history.length ↔
        ∃ h ∈ history, h.resolution = none := by
      constructor
      · intro hlt
        by_contra hno
        push_neg at hno
        have hall : ∀ h ∈ history, (fun h : HistoricalFailure => h.resolution.isSome) h = true := by
          intro h hm
          cases hr : h.resolution with
          | none => exact absurd hr (hno h hm)
          | some r => simp [hr]
        rw [List.countP_eq_length.mpr hall] at hlt
        exact lt_irrefl _ hlt
      · rintro ⟨a, ha, hnone⟩
        refine lt_of_le_of_ne (List.countP_le_length _) (fun he => ?_)
        have := List.countP_eq_length.mp he a ha
        simp [hnone] at this
    have hmix : (history.countP (fun h => h.resolution.isSome) > 0
        ∧ history.length > history.countP (fun h => h.resolution.isSome)) ↔
        ((∃ h ∈ history, h.resolution.isSome = true)
          ∧ (∃ h ∈ history, h.resolution = none)) :=
      and_congr List.countP_pos_iff hlt
    simp only [calculate_flaky_score, pyMin_eq_min, List.mem_cons,
      List.mem_singleton, List.not_mem_nil, or_false, hmix]
    split_ifs <;> norm_num
  · norm_num [calculate_flaky_score, networkRetryFailure, baseFailure, pyMin]

/-! ## C3 and C10: the confidence score -/

/-- C3: `calculate_confidence` starts at 0.5, adds 0.3 when some
similar failure has a resolution with confidence above 0.7, subtracts
0.2 for UNKNOWN, subtracts 0.1 when the flaky score exceeds 0.7, and
clamps to [0.1, 1.0]; and TIMEOUT with one similar failure resolved at
confidence 0.9 and flaky score 0.3 yields exactly 0.8. -/
theorem calculate_confidence_formula (ft : FailureType)
    (sims : List HistoricalFailure) (fs : ℚ) :
    calculate_confidence ft sims fs =
      max 0.1 (min 1 ((0.5 : ℚ)
        + (if ∃ s ∈ sims, ∃ r, s.resolution = some r ∧ r.confidence > 0.7
            then (0.3 : ℚ) else 0)
        - (if ft = FailureType.UNKNOWN then (0.2 : ℚ) else 0)
        - (if fs > 0.7 then (0.1 : ℚ) else 0))) ∧
    calculate_confidence FailureType.TIMEOUT [simFixB] 0.3 = 0.8 := by
  constructor
  · have hres : (!(sims.filter resolutionAbove07).isEmpty) = true ↔
        ∃ s ∈ sims, ∃ r, s.resolution = some r ∧ r.confidence > 0.7 := by
      rw [Bool.not_eq_true', ← Bool.not_eq_true, List.isEmpty_iff,
        List.filter_eq_nil_iff]
      push_neg
      constructor
      · rintro ⟨s, hs, hp⟩
        refine ⟨s, hs, ?_⟩
        cases hr : s.resolution with
        | none => rw [resolutionAbove07, hr] at hp; simp at hp
        | some r =>
          rw [resolutionAbove07, hr] at hp
          simp at hp
          exact ⟨r, rfl, hp⟩
      · rintro ⟨s, hs, r, hr, hc⟩
        exact ⟨s, hs, by simp [resolutionAbove07, hr, hc]⟩
    simp only [calculate_confidence, pyMax_eq_max, pyMin_eq_min, hres]
    split_ifs <;> norm_num
  · have hsim : resolutionAbove07 simFixB = true := by
      norm_num [resolutionAbove07, simFixB, fixBRes, baseFailure]
    norm_num [calculate_confidence, pyMin, pyMax, List.filter_cons, List.filter_nil,
      hsim, show (FailureType.TIMEOUT = FailureType.UNKNOWN) = False from by decide]

/-- Exact-rational idealization of the confidence range: in the ℚ model
the confidence always lies in [0.2, 0.8].  Under the program's double
arithmetic the lower endpoint drops just below 0.2; see
`calculate_confidence_fp_range` and its counterexample. -/
theorem calculate_confidence_range (ft : FailureType)
    (sims : List HistoricalFailure) (fs : ℚ) :
    (0.2 : ℚ) ≤ calculate_confidence ft sims fs ∧
    calculate_confidence ft sims fs ≤ 0.8 := by
  simp only [calculate_confidence, pyMin, pyMax]
  split_ifs <;> norm_num at *

/-! ## C2 and C10: the scoring functions under IEEE-754 double semantics -/

theorem mixed_resolution_iff (history : List HistoricalFailure) :
    (history.countP (fun h => h.resolution.isSome) > 0
      ∧ history.length > history.countP (fun h => h.resolution.isSome)) ↔
    ((∃ h ∈ history, h.resolution.isSome = true)
      ∧ (∃ h ∈ history, h.resolution = none)) := by
  refine and_congr List.countP_pos_iff ?_
  constructor
  · intro hlt
    by_contra hno
    push_neg at hno
    have hall : ∀ h ∈ history,
        (fun h : HistoricalFailure => h.resolution.isSome) h = true := by
      intro h hm
      cases hr : h.resolution with
      | none => exact absurd hr (hno h hm)
      | some r => simp [hr]
    rw [List.countP_eq_length.mpr hall] at hlt
    exact lt_irrefl _ hlt
  · rintro ⟨a, ha, hnone⟩
    refine lt_of_le_of_ne (List.countP_le_length _) (fun he => ?_)
    have := List.countP_eq_length.mp he a ha
    simp [hnone] at this

/-- C2 (amended): under the program's IEEE-754 double arithmetic,
`calculate_flaky_score` returns the left-to-right float evaluation of
the sum of the applicable fixed weights 0.4, 0.3, 0.2, 0.1, clamped at
1.0 by a float comparison; the example retry_count=2, NetworkError,
empty history yields the double 0.6000000000000001
(= 5404319552844596 / 2^53), within 2^(-52) of — but not equal to — the
exact sum 0.6. -/
theorem calculate_flaky_score_fp_weights (f : HistoricalFailure)
    (history : List HistoricalFailure) :
    calculate_flaky_score_fp f history =
      pyMinFp (List.foldl fadd 0
        ((if f.retry_count > 0 then [d04] else [])
          ++ (if history.length ≥ 3 then [d03] else [])
          ++ (if f.error_type = some "NetworkError".toList
                ∨ f.error_type = some "TimeoutError".toList then [d02] else [])
          ++ (if (∃ h ∈ history, h.resolution.isSome = true)
                ∧ (∃ h ∈ history, h.resolution = none) then [d01] else []))) d1 ∧
    calculate_flaky_score_fp networkRetryFailure [] = 21617278211378384 ∧
    dblValue 21617278211378384 = 5404319552844596 / 2 ^ 53 ∧
    |dblValue 21617278211378384 - 3 / 5| < 1 / 2 ^ 52 := by
  refine ⟨?_, by decide, by norm_num [dblValue], by norm_num [dblValue, abs_lt]⟩
  by_cases c1 : f.retry_count > 0 <;>
  by_cases c2 : history.length ≥ 3 <;>
  by_cases c3 : f.error_type = some "NetworkError".toList
      ∨ f.error_type = some "TimeoutError".toList <;>
  by_cases c4 : (∃ h ∈ history, h.resolution.isSome = true)
      ∧ (∃ h ∈ history, h.resolution = none) <;>
  simp only [calculate_flaky_score_fp, List.mem_cons, List.mem_singleton,
    List.not_mem_nil, or_false, mixed_resolution_iff, c1, c2, c3, c4,
    if_true, if_false, ite_true, ite_false, eq_self_iff_true,
    not_false_iff] <;>
  decide

/-- C2 is false as stated of the program: with retry_count=2, error type
NetworkError and empty history the double score is the float sum
0.6000000000000001, which is neither the exact weight sum 0.6 nor the
double nearest 0.6 — float addition of the weights does not return their
exact sum. -/
theorem calculate_flaky_score_fp_counterexample :
    calculate_flaky_score_fp networkRetryFailure [] = 21617278211378384 ∧
    dblValue (calculate_flaky_score_fp networkRetryFailure []) ≠ 3 / 5 ∧
    calculate_flaky_score_fp networkRetryFailure [] ≠ d06 := by
  have h : calculate_flaky_score_fp networkRetryFailure [] = 21617278211378384 := by
    decide
  refine ⟨h, ?_, by decide⟩
  rw [h]
  norm_num [dblValue]

/-- C10 (amended): under the program's IEEE-754 double arithmetic the
confidence always lies in [0.19999999999999998, 0.8], where the lower
endpoint is the double 0.5 - 0.2 - 0.1 = 7205759403792793 / 2^55,
slightly below 0.2; the documented clamp bounds 0.1 and 1.0 are still
never attained.  (The exact-rational idealization gives [0.2, 0.8], see
`calculate_confidence_range`.) -/
theorem calculate_confidence_fp_range (ft : FailureType)
    (sims : List HistoricalFailure) (fs : Int) :
    7205759403792793 ≤ calculate_confidence_fp ft sims fs ∧
    calculate_confidence_fp ft sims fs ≤ d08 ∧
    calculate_confidence_fp ft sims fs ≠ d01 ∧
    calculate_confidence_fp ft sims fs ≠ d1 := by
  by_cases c1 : (!(sims.filter resolutionAbove07).isEmpty) = true <;>
  by_cases c2 : ft = FailureType.UNKNOWN <;>
  by_cases c3 : fs > d07 <;>
  simp only [calculate_confidence_fp, c1, c2, c3, if_true, if_false,
    ite_true, ite_false, eq_self_iff_true, not_false_iff] <;>
  decide

/-- C10 is false as stated of the program: for UNKNOWN classification
with a flaky score above 0.7 and no qualifying similar failure the
double confidence is 0.5 - 0.2 - 0.1 = 0.19999999999999998, strictly
below 0.2 — below both the rational 1/5 and the double nearest 0.2 — so
0.2 is not a lower bound of the program's confidence. -/
theorem calculate_confidence_fp_counterexample :
    calculate_confidence_fp FailureType.UNKNOWN [] d08 = 7205759403792793 ∧
    dblValue (calculate_confidence_fp FailureType.UNKNOWN [] d08) < 1 / 5 ∧
    calculate_confidence_fp FailureType.UNKNOWN [] d08 < d02 := by
  have h : calculate_confidence_fp FailureType.UNKNOWN [] d08
      = 7205759403792793 := by decide
  refine ⟨h, ?_, by decide⟩
  rw [h]
  norm_num [dblValue]

/-! ## C4 and C5: suggested actions -/

theorem simActions_eq_map (sims : List HistoricalFailure) :
    simActions sims =
      (qualifyingFixes sims).map (fun fx => "Apply similar fix: ".toList ++ fx) := by
  simp only [simActions, qualifyingFixes]
  generalize sims.take 2 = l
  induction l with
  | nil => simp
  | cons a l ih =>
    cases hr : a.resolution with
    | none => simp only [List.filterMap_cons, hr, ih]
    | some r =>
      by_cases hc : r.confidence > 0.7 <;>
        simp only [List.filterMap_cons, List.map_cons, hr, hc, ih,
          ite_true, ite_false, eq_self_iff_true, if_true, if_false]

theorem simActions_length_le (sims : List HistoricalFailure) :
    (simActions sims).length ≤ 2 := by
  rw [simActions_eq_map, List.length_map]
  have h1 : (qualifyingFixes sims).length ≤ (sims.take 2).length := by
    simp only [qualifyingFixes]
    exact List.length_filterMap_le _ _
  exact h1.trans (by simp [List.length_take])

theorem mem_simActions_marked (sims : List HistoricalFailure) :
    ∀ a ∈ simActions sims, "Apply similar fix: ".toList <+: a := by
  rw [simActions_eq_map]
  intro a ha
  obtain ⟨fx, _, rfl⟩ := List.mem_map.mp ha
  exact List.prefix_append _ _

theorem mem_restActions_unmarked (ft : FailureType) (fs : ℚ) :
    ∀ a ∈ typeActions ft fs ++
      (if fs > 0.75 then ["🚨 HIGH FLAKINESS - Consider quarantining test".toList]
       else []),
      ("Apply similar fix: ".toList).isPrefixOf a = false := by
  cases ft <;> simp only [typeActions] <;> split_ifs <;> decide

theorem restActions_nodup (ft : FailureType) (fs : ℚ) :
    (typeActions ft fs ++
      (if fs > 0.75 then ["🚨 HIGH FLAKINESS - Consider quarantining test".toList]
       else [])).Nodup := by
  cases ft <;> simp only [typeActions] <;> split_ifs <;> decide

/-- C4 (amended): the leading entries of the `suggest_actions` output
are, in order, one action quoting the resolution's fix for each of the
first two entries of the similar-failure list whose resolution
confidence exceeds 0.7 (qualifying failures beyond the first two list
positions are not quoted). -/
theorem suggest_actions_leading_fixes (ft : FailureType) (fs : ℚ)
    (sims : List HistoricalFailure) :
    simActions sims <+: suggest_actions ft fs sims := by
  simp only [suggest_actions]
  by_cases he : ((simActions sims ++ typeActions ft fs ++
      (if fs > 0.75 then ["🚨 HIGH FLAKINESS - Consider quarantining test".toList]
       else [])).isEmpty) = true
  · have hnil := List.isEmpty_iff.mp he
    obtain ⟨h1, -⟩ := List.append_eq_nil.mp hnil
    obtain ⟨h2, -⟩ := List.append_eq_nil.mp h1
    rw [if_pos he, h2]
    exact List.nil_prefix
  · rw [if_neg he, List.append_assoc, List.take_append_eq_append_take,
      List.take_of_length_le ((simActions_length_le sims).trans (by norm_num))]
    exact List.prefix_append _ _

/-- C4 is false as stated: in `skipFirstSims` the first two failures in
the list whose resolution confidence exceeds 0.7 sit at positions 2 and
3, yet only the position-2 one is quoted — the claimed two leading
actions are not a prefix of the output. -/
theorem suggest_actions_leading_fixes_counterexample :
    ¬ (claimedLeadingFixActions skipFirstSims <+:
        suggest_actions FailureType.UNKNOWN 0 skipFirstSims) := by
  have h1 : suggest_actions FailureType.UNKNOWN 0 skipFirstSims
      = ["Apply similar fix: B".toList] := by
    norm_num [suggest_actions, simActions, typeActions, skipFirstSims, simFixB,
      simFixC, fixBRes, fixCRes, baseFailure, List.filterMap_cons,
      List.filterMap_nil, List.take]
  have h2 : claimedLeadingFixActions skipFirstSims
      = ["Apply similar fix: B".toList, "Apply similar fix: C".toList] := by
    norm_num [claimedLeadingFixActions, skipFirstSims, simFixB, simFixC, fixBRes,
      fixCRes, baseFailure, List.filterMap_cons, List.filterMap_nil, List.take]
  rw [h1, h2]
  decide

/-- C5 (amended): `suggest_actions` returns between 1 and 5 actions
inclusive, never empty; and the returned action strings are pairwise
distinct whenever the fix texts quoted from the qualifying similar
failures are pairwise distinct (two quoting actions coincide exactly
when their underlying fix texts coincide). -/
theorem suggest_actions_count_distinct (ft : FailureType) (fs : ℚ)
    (sims : List HistoricalFailure) :
    1 ≤ (suggest_actions ft fs sims).length ∧
    (suggest_actions ft fs sims).length ≤ 5 ∧
    ((qualifyingFixes sims).Nodup → (suggest_actions ft fs sims).Nodup) := by
  simp only [suggest_actions]
  by_cases he : ((simActions sims ++ typeActions ft fs ++
      (if fs > 0.75 then ["🚨 HIGH FLAKINESS - Consider quarantining test".toList]
       else [])).isEmpty) = true
  · rw [if_pos he]
    refine ⟨by decide, by decide, fun _ => ?_⟩
    exact List.Nodup.sublist (List.take_sublist _ _) (by decide)
  · rw [if_neg he]
    have hne : simActions sims ++ typeActions ft fs ++
        (if fs > 0.75 then ["🚨 HIGH FLAKINESS - Consider quarantining test".toList]
         else []) ≠ [] := fun hnil => he (List.isEmpty_iff.mpr hnil)
    refine ⟨?_, ?_, fun hq => ?_⟩
    · rw [List.length_take]
      have hpos : 0 < (simActions sims ++ typeActions ft fs ++
          (if fs > 0.75 then
            ["🚨 HIGH FLAKINESS - Consider quarantining test".toList]
           else [])).length := List.length_pos.mpr hne
      omega
    · rw [List.length_take]
      omega
    · refine List.Nodup.sublist (List.take_sublist _ _) ?_
      rw [List.append_assoc, List.nodup_append]
      refine ⟨?_, ?_, ?_⟩
      · rw [simActions_eq_map]
        exact hq.map (fun x y h => List.append_cancel_left h)
      · exact restActions_nodup ft fs
      · intro a ha hb
        have hmark := mem_simActions_marked sims a ha
        have hunmark := mem_restActions_unmarked ft fs a hb
        rw [← List.isPrefixOf_iff_prefix] at hmark
        rw [hmark] at hunmark
        simp at hunmark

/-- C5 is false as stated: two similar failures that share the fix text
"B" produce two identical "Apply similar fix" actions, so the returned
action strings are not pairwise distinct. -/
theorem suggest_actions_count_distinct_counterexample :
    ¬ (suggest_actions FailureType.UNKNOWN 0 [simFixB, simFixB]).Nodup := by
  have h1 : suggest_actions FailureType.UNKNOWN 0 [simFixB, simFixB] =
      ["Apply similar fix: B".toList, "Apply similar fix: B".toList] := by
    norm_num [suggest_actions, simActions, typeActions, simFixB, fixBRes,
      baseFailure, List.filterMap_cons, List.filterMap_nil, List.take]
  rw [h1]
  decide

/-- Witness for C5 at a concrete input with one qualifying similar
failure. -/
theorem suggest_actions_count_distinct_witness :
    (qualifyingFixes [simFixB]).Nodup ∧
    1 ≤ (suggest_actions FailureType.TIMEOUT 0 [simFixB]).length ∧
    (suggest_actions FailureType.TIMEOUT 0 [simFixB]).length ≤ 5 ∧
    (suggest_actions FailureType.TIMEOUT 0 [simFixB]).Nodup := by
  have hq : (qualifyingFixes [simFixB]).Nodup := by
    have : qualifyingFixes [simFixB] = ["B".toList] := by
      norm_num [qualifyingFixes, simFixB, fixBRes, baseFailure,
        List.filterMap_cons, List.filterMap_nil, List.take]
    rw [this]
    decide
  obtain ⟨h1, h2, h3⟩ := suggest_actions_count_distinct FailureType.TIMEOUT 0 [simFixB]
  exact ⟨hq, h1, h2, h3 hq⟩

/-! ## C8 and C9: orchestration trace and determinism -/

/-- C8 (amended): the reasoning trace of every analysis consists of
exactly the seven entries the orchestrator appends, in execution order —
evidence gathering, similar-failure search, history retrieval (naming
the test), flakiness computation, classification, explanation
generation, and action suggestion; the confidence computation and the
result assembly append no trace entry. -/
theorem analyze_reasoning_trace (llm : Option (List Char → Option (List Char)))
    (memory : FailureMemory) (failure : HistoricalFailure) :
    (analyze llm memory failure).reasoning_steps =
      [ "Gathering evidence from logs and error messages".toList
      , "Searching for similar past failures in memory".toList
      , "Retrieving history for test: ".toList ++ failure.test_name
      , "Calculating flakiness probability".toList
      , "Classifying failure type".toList
      , "Generating root cause explanation".toList
      , "Determining actionable next steps".toList ] := rfl

/-- C8 is false as stated: one entry appended before each of the nine
claimed orchestration steps would give a trace of at least nine entries,
but a concrete run's trace has exactly seven (none mentions the
confidence computation or the result assembly). -/
theorem analyze_reasoning_trace_counterexample :
    (analyze none emptyMemory networkRetryFailure).reasoning_steps.length = 7 ∧
    ¬ 9 ≤ (analyze none emptyMemory networkRetryFailure).reasoning_steps.length := by
  decide

/-- C9: with the LLM collaborator disabled, two analysis runs on equal
inputs (the same failure record against the same memory contents) agree
on every field of the resulting TriageResult. -/
theorem analyze_deterministic (memory : FailureMemory)
    (f g : HistoricalFailure) (h : f = g) :
    (analyze none memory f).test_name = (analyze none memory g).test_name ∧
    (analyze none memory f).classification = (analyze none memory g).classification ∧
    (analyze none memory f).flaky_probability
      = (analyze none memory g).flaky_probability ∧
    (analyze none memory f).root_cause_explanation
      = (analyze none memory g).root_cause_explanation ∧
    (analyze none memory f).suggested_actions
      = (analyze none memory g).suggested_actions ∧
    (analyze none memory f).confidence_score
      = (analyze none memory g).confidence_score ∧
    (analyze none memory f).similar_failures
      = (analyze none memory g).similar_failures ∧
    (analyze none memory f).reasoning_steps
      = (analyze none memory g).reasoning_steps := by
  subst h
  exact ⟨rfl, rfl, rfl, rfl, rfl, rfl, rfl, rfl⟩

/-- Witness for C9 at a concrete memory and failure. -/
theorem analyze_deterministic_witness :
    (analyze none emptyMemory networkRetryFailure).test_name
      = (analyze none emptyMemory networkRetryFailure).test_name ∧
    (analyze none emptyMemory networkRetryFailure).classification
      = (analyze none emptyMemory networkRetryFailure).classification ∧
    (analyze none emptyMemory networkRetryFailure).flaky_probability
      = (analyze none emptyMemory networkRetryFailure).flaky_probability ∧
    (analyze none emptyMemory networkRetryFailure).root_cause_explanation
      = (analyze none emptyMemory networkRetryFailure).root_cause_explanation ∧
    (analyze none emptyMemory networkRetryFailure).suggested_actions
      = (analyze none emptyMemory networkRetryFailure).suggested_actions ∧
    (analyze none emptyMemory networkRetryFailure).confidence_score
      = (analyze none emptyMemory networkRetryFailure).confidence_score ∧
    (analyze none emptyMemory networkRetryFailure).similar_failures
      = (analyze none emptyMemory networkRetryFailure).similar_failures ∧
    (analyze none emptyMemory networkRetryFailure).reasoning_steps
      = (analyze none emptyMemory networkRetryFailure).reasoning_steps :=
  analyze_deterministic emptyMemory networkRetryFailure networkRetryFailure rfl

/-! ## C6 and C7: the log parser -/

theorem extract_test_name_default (entries : List LogEntry)
    (h : ∀ e ∈ entries, containsSub "Starting test:".toList e.message = true →
      searchPat testNameMatch e.message = none) :
    extract_test_name entries = "unknown_test".toList := by
  induction entries with
  | nil => rfl
  | cons e es ih =>
    simp only [extract_test_name]
    by_cases hm : containsSub "Starting test:".toList e.message = true
    · rw [if_pos hm, h e (List.mem_cons_self e es) hm]
      exact ih (fun x hx hmx => h x (List.mem_cons_of_mem e hx) hmx)
    · rw [if_neg hm]
      exact ih (fun x hx hmx => h x (List.mem_cons_of_mem e hx) hmx)

theorem extract_test_name_concat (p : List LogEntry) (e : LogEntry)
    (q : List LogEntry) (n : List Char)
    (hp : ∀ x ∈ p, containsSub "Starting test:".toList x.message = true →
      searchPat testNameMatch x.message = none)
    (hm : containsSub "Starting test:".toList e.message = true)
    (hn : searchPat testNameMatch e.message = some n) :
    extract_test_name (p ++ e :: q) = n := by
  induction p with
  | nil =>
    rw [List.nil_append]
    simp only [extract_test_name]
    rw [if_pos hm, hn]
  | cons x p ih =>
    rw [List.cons_append]
    simp only [extract_test_name]
    by_cases hx : containsSub "Starting test:".toList x.message = true
    · rw [if_pos hx, hp x (List.mem_cons_self x p) hx]
      exact ih (fun y hy hmy => hp y (List.mem_cons_of_mem x hy) hmy)
    · rw [if_neg hx]
      exact ih (fun y hy hmy => hp y (List.mem_cons_of_mem x hy) hmy)

theorem extract_duration_default (entries : List LogEntry)
    (h : ∀ e ∈ entries, searchPat durationMatch e.message = none) :
    extract_duration entries = none := by
  induction entries with
  | nil => rfl
  | cons e es ih =>
    simp only [extract_duration]
    rw [h e (List.mem_cons_self e es)]
    exact ih (fun x hx => h x (List.mem_cons_of_mem e hx))

theorem extract_duration_concat (p : List LogEntry) (e : LogEntry)
    (q : List LogEntry) (n : Nat)
    (hp : ∀ x ∈ p, searchPat durationMatch x.message = none)
    (hn : searchPat durationMatch e.message = some n) :
    extract_duration (p ++ e :: q) = some (n : ℚ) := by
  induction p with
  | nil =>
    rw [List.nil_append]
    simp only [extract_duration]
    rw [hn]
  | cons x p ih =>
    rw [List.cons_append]
    simp only [extract_duration]
    rw [hp x (List.mem_cons_self x p)]
    exact ih (fun y hy => hp y (List.mem_cons_of_mem x hy))

theorem extract_failure_message_default (entries : List LogEntry)
    (h : ∀ e ∈ entries, ¬(e.level = "FAIL".toList ∨ e.level = "ERROR".toList)) :
    extract_failure_message entries = "Unknown failure".toList := by
  simp only [extract_failure_message]
  have hnil : entries.filter (fun e =>
      e.level = "FAIL".toList || e.level = "ERROR".toList) = [] := by
    rw [List.filter_eq_nil_iff]
    intro a ha
    simpa using h a ha
  rw [hnil]

theorem mem_infix_joinWith (sep : Char) (L : List (List Char)) (m : List Char)
    (hm : m ∈ L) : m <:+: joinWith sep L := by
  induction L with
  | nil => cases hm
  | cons a L ih =>
    rcases List.mem_cons.mp hm with rfl | hm'
    · cases L with
      | nil => exact List.infix_refl m
      | cons b L' =>
        simp only [joinWith]
        exact (List.prefix_append m (sep :: joinWith sep (b :: L'))).isInfix
    · cases L with
      | nil => cases hm'
      | cons b L' =>
        refine (ih hm').trans ?_
        simp only [joinWith]
        exact ((List.suffix_cons sep (joinWith sep (b :: L'))).trans
          (List.suffix_append a (sep :: joinWith sep (b :: L')))).isInfix

theorem classify_parser_error_type_none (ls : List (List Char))
    (h : ∀ kw ∈ ["timeout".toList, "selector".toList, "element not found".toList,
        "connection".toList, "network".toList, "database".toList,
        "duplicate key".toList],
      containsSub kw (pyLower (joinWith ' ' ls)) = false) :
    classify_parser_error_type ls = none := by
  have h1 := h "timeout".toList (by simp)
  have h2 := h "selector".toList (by simp)
  have h3 := h "element not found".toList (by simp)
  have h4 := h "connection".toList (by simp)
  have h5 := h "network".toList (by simp)
  have h6 := h "database".toList (by simp)
  have h7 := h "duplicate key".toList (by simp)
  simp only [classify_parser_error_type, h1, h2, h3, h4, h5, h6, h7,
    Bool.or_self, Bool.or_false, Bool.false_or, Bool.false_eq_true,
    if_false, ite_false]

theorem classify_parser_error_type_timeout (ls : List (List Char))
    (m : List Char) (hm : m ∈ ls)
    (ht : containsSub "Timeout 30000ms exceeded".toList m = true) :
    classify_parser_error_type ls = some "TimeoutError".toList := by
  have h1 : containsSub "timeout".toList (pyLower (joinWith ' ' ls)) = true := by
    rw [containsSub_iff] at ht ⊢
    have hinfix : m <:+: joinWith ' ' ls := mem_infix_joinWith ' ' ls m hm
    have hlow : pyLower m <:+: pyLower (joinWith ' ' ls) := by
      simp only [pyLower]
      exact hinfix.map Char.toLower
    have hlit : pyLower "Timeout 30000ms exceeded".toList <:+: pyLower m := by
      simp only [pyLower]
      exact ht.map Char.toLower
    have hkw : "timeout".toList <:+: pyLower "Timeout 30000ms exceeded".toList := by
      decide
    exact (hkw.trans hlit).trans hlow
  simp only [classify_parser_error_type, h1, if_true, eq_self_iff_true, ite_true]

/-- C6: `parse_file` is total on every input string, and each unmatched
field degrades to its documented default: test name "unknown_test" when
no line yields one, failure message "Unknown failure" when no ERROR/FAIL
entry exists, error type absent when no classification keyword occurs in
the error text, duration absent when no entry matches the duration
pattern. -/
theorem parse_file_degrades_to_defaults (content : List Char) :
    ((∀ e ∈ parse_log_lines content,
        containsSub "Starting test:".toList e.message = true →
        searchPat testNameMatch e.message = none) →
      (parse_file content).test_name = "unknown_test".toList) ∧
    ((∀ e ∈ parse_log_lines content,
        ¬(e.level = "FAIL".toList ∨ e.level = "ERROR".toList)) →
      (parse_file content).failure_message = "Unknown failure".toList) ∧
    ((∀ kw ∈ ["timeout".toList, "selector".toList, "element not found".toList,
        "connection".toList, "network".toList, "database".toList,
        "duplicate key".toList],
        containsSub kw (pyLower (joinWith ' ' (parse_file content).error_lines))
          = false) →
      (parse_file content).error_type = none) ∧
    ((∀ e ∈ parse_log_lines content, searchPat durationMatch e.message = none) →
      (parse_file content).duration_seconds = none) := by
  refine ⟨?_, ?_, ?_, ?_⟩
  · intro h
    exact extract_test_name_default (parse_log_lines content) h
  · intro h
    exact extract_failure_message_default (parse_log_lines content) h
  · intro h
    exact classify_parser_error_type_none _ h
  · intro h
    exact extract_duration_default (parse_log_lines content) h

/-- Witness for C6 at a log with no matching pattern at all. -/
theorem parse_file_degrades_to_defaults_witness :
    (parse_file garbageLog).test_name = "unknown_test".toList ∧
    (parse_file garbageLog).failure_message = "Unknown failure".toList ∧
    (parse_file garbageLog).error_type = none ∧
    (parse_file garbageLog).duration_seconds = none := by
  obtain ⟨h1, h2, h3, h4⟩ := parse_file_degrades_to_defaults garbageLog
  exact ⟨h1 (by decide), h2 (by decide), h3 (by decide), h4 (by decide)⟩

/-- C7 (amended): for every log whose first name-yielding entry names
test_user_login, which has an ERROR/FAIL-level entry containing
"Timeout 30000ms exceeded", whose first duration-pattern match is
"after 32s", and none of whose entries contains "retry attempt"
(case-insensitively), parsing yields test name "test_user_login", error
type "TimeoutError", duration 32.0 and retry count 0. -/
theorem parse_file_timeout_log (content : List Char)
    (p : List LogEntry) (e : LogEntry) (q : List LogEntry)
    (hsplit : parse_log_lines content = p ++ e :: q)
    (hp : ∀ x ∈ p, containsSub "Starting test:".toList x.message = true →
      searchPat testNameMatch x.message = none)
    (hm : containsSub "Starting test:".toList e.message = true)
    (hn : searchPat testNameMatch e.message = some "test_user_login".toList)
    (herr : ∃ x ∈ parse_log_lines content,
      (x.level = "ERROR".toList ∨ x.level = "FAIL".toList) ∧
      containsSub "Timeout 30000ms exceeded".toList x.message = true)
    (pd : List LogEntry) (ed : LogEntry) (qd : List LogEntry)
    (hdsplit : parse_log_lines content = pd ++ ed :: qd)
    (hpd : ∀ x ∈ pd, searchPat durationMatch x.message = none)
    (hd : searchPat durationMatch ed.message = some 32)
    (hretry : ∀ x ∈ parse_log_lines content,
      containsSub "retry attempt".toList (pyLower x.message) = false) :
    (parse_file content).test_name = "test_user_login".toList ∧
    (parse_file content).error_type = some "TimeoutError".toList ∧
    (parse_file content).duration_seconds = some (32 : ℚ) ∧
    (parse_file content).retry_count = 0 := by
  refine ⟨?_, ?_, ?_, ?_⟩
  · show extract_test_name (parse_log_lines content) = "test_user_login".toList
    rw [hsplit]
    exact extract_test_name_concat p e q _ hp hm hn
  · show classify_parser_error_type
        (((parse_log_lines content).filter isErrorLevel).map (fun e => e.message))
        = some "TimeoutError".toList
    obtain ⟨x, hxmem, hxlvl, hxcontains⟩ := herr
    refine classify_parser_error_type_timeout _ x.message ?_ hxcontains
    refine List.mem_map_of_mem _ (List.mem_filter.mpr ⟨hxmem, ?_⟩)
    rcases hxlvl with h | h <;> simp [isErrorLevel, h]
  · show extract_duration (parse_log_lines content) = some (32 : ℚ)
    rw [hdsplit]
    simpa using extract_duration_concat pd ed qd 32 hpd hd
  · show count_retries (parse_log_lines content) = 0
    simp only [count_retries]
    rw [List.countP_eq_zero]
    intro a ha
    show ¬(containsSub "retry attempt".toList (pyLower a.message) = true)
    rw [hretry a ha]
    simp

/-- Witness for C7 at the concrete three-line log. -/
theorem parse_file_timeout_log_witness :
    (parse_file goodLog).test_name = "test_user_login".toList ∧
    (parse_file goodLog).error_type = some "TimeoutError".toList ∧
    (parse_file goodLog).duration_seconds = some (32 : ℚ) ∧
    (parse_file goodLog).retry_count = 0 :=
  parse_file_timeout_log goodLog [] goodEntry0 [goodEntry1, goodEntry2]
    (by decide) (by decide) (by decide) (by decide) (by decide)
    [goodEntry0, goodEntry1] goodEntry2 [] (by decide) (by decide) (by decide)
    (by decide)

/-- C7 is false as universally stated: `badLog` satisfies every premise
of the claim — its lines include "Starting test: test_user_login", an
ERROR-level line containing "Timeout 30000ms exceeded", a line
containing "after 32s", and no line containing "retry attempt" — yet it
parses to test name "test_other", because an earlier line names another
test. -/
theorem parse_file_timeout_log_counterexample :
    (∃ x ∈ parse_log_lines badLog,
      containsSub "Starting test: test_user_login".toList x.message = true) ∧
    (∃ x ∈ parse_log_lines badLog,
      (x.level = "ERROR".toList ∨ x.level = "FAIL".toList) ∧
      containsSub "Timeout 30000ms exceeded".toList x.message = true) ∧
    (∃ x ∈ parse_log_lines badLog,
      containsSub "after 32s".toList x.message = true) ∧
    (∀ x ∈ parse_log_lines badLog,
      containsSub "retry attempt".toList (pyLower x.message) = false) ∧
    (parse_file badLog).test_name ≠ "test_user_login".toList := by
  decide

end Triage
